import Mathlib

/-!
# Verification of the vexide-simulator-protocol message schema

A shallow embedding of `src/lib.rs` of the `vexide-simulator-protocol` crate.
The crate defines plain Rust data types with serde-derived `Serialize` /
`Deserialize` implementations; messages travel as one JSON value per line.

Modelling conventions:
* JSON values are modelled as a tree (`Json`); the serde_json text layer
  (printing/parsing of a `Value`) is not modelled.  JSON numbers are carried
  as exact rationals.
* Rust machine integers are modelled as subtypes of `ℤ`/`ℕ` with their range
  invariant (`I32`, `U8`, `U16`, `U32`, `Usize`, `NonZeroU16`).
* Rust `f64` is modelled by `F64`: a finite double is carried as its exact
  rational value (serde_json prints finite doubles with a shortest
  representation that parses back to the identical double, so on the encode
  image the wire codec is exact); all non-finite doubles (NaN and the two
  infinities) are collapsed into `F64.notFinite`, because serde_json
  serializes every non-finite `f64` as JSON `null`, and `null` fails to
  deserialize as `f64`.
* Encoders (`encodeX`) follow serde's externally-tagged enum representation
  produced by the derived `Serialize` impls; decoders (`decodeX`) follow the
  derived `Deserialize` impls on the canonical encoded shape (the derived
  impls additionally tolerate struct fields arriving in a different order,
  which never happens on the encode image considered here).
* `Result<T, E>` returns are modelled as `Option T` (`Ok` ↦ `some`,
  `Err` ↦ `none`) except where the error value itself is at issue, where
  `Except String` keeps serde's error message.
-/

/-- A JSON value, as produced by serde_json's `Value` tree.  Numbers are
modelled as exact rationals. -/
inductive Json : Type where
  | null : Json
  | bool (b : Bool) : Json
  | num (q : ℚ) : Json
  | str (s : String) : Json
  | arr (xs : List Json) : Json
  | obj (fields : List (String × Json)) : Json

/-- `j.objKey` is the key of `j` when `j` is a single-key JSON object. -/
def Json.objKey : Json → Option String
  | .obj [(k, _)] => some k
  | _ => none

/-- Whether a JSON value is an object with exactly one key. -/
def Json.isSingleKeyObj : Json → Bool
  | .obj [_] => true
  | _ => false

/-- Rust `i32`. -/
def I32 : Type := { n : ℤ // -(2 ^ 31) ≤ n ∧ n < 2 ^ 31 }
deriving DecidableEq

/-- Rust `u8`. -/
def U8 : Type := { n : ℕ // n < 2 ^ 8 }
deriving DecidableEq

/-- Rust `u16`. -/
def U16 : Type := { n : ℕ // n < 2 ^ 16 }
deriving DecidableEq

/-- Rust `u32`. -/
def U32 : Type := { n : ℕ // n < 2 ^ 32 }
deriving DecidableEq

/-- Rust `usize` (64-bit target). -/
def Usize : Type := { n : ℕ // n < 2 ^ 64 }
deriving DecidableEq

/-- Rust `std::num::NonZeroU16` (used for the `stride` field of
`DrawCommand::CopyBuffer`). -/
def NonZeroU16 : Type := { n : ℕ // 0 < n ∧ n < 2 ^ 16 }
deriving DecidableEq

/-- Rust `NonZeroU16::new`: `some` exactly on nonzero values (the `u16` range
bound is enforced by the argument type in Rust; here it is part of the
check). -/
def NonZeroU16.new (n : ℕ) : Option NonZeroU16 :=
  if h : 0 < n ∧ n < 2 ^ 16 then some ⟨n, h⟩ else none

/-- Rust `f64` as seen by the serde_json codec: `finite q` is a finite double
of exact value `q`; `notFinite` stands for NaN and the infinities, all of
which serde_json serializes as JSON `null`. -/
inductive F64 : Type where
  | finite (q : ℚ) : F64
  | notFinite : F64
deriving DecidableEq

/-- Whether an `F64` is a finite double. -/
def F64.isFinite : F64 → Bool
  | .finite _ => true
  | .notFinite => false

/-! ## Base64 (the `base64` crate's `BASE64_STANDARD` engine)

`SerialData::new` / `VCodeSig::new` call `BASE64_STANDARD.encode`, and their
`to_bytes` methods call `BASE64_STANDARD.decode`: RFC 4648 standard alphabet
with `=` padding; decoding rejects bad symbols, bad length and nonzero
trailing bits.  Bytes are modelled as naturals below 256. -/

/-- The standard base64 alphabet: sextet value to character. -/
def b64EncChar (n : ℕ) : Char :=
  if n < 26 then Char.ofNat (65 + n)
  else if n < 52 then Char.ofNat (97 + (n - 26))
  else if n < 62 then Char.ofNat (48 + (n - 52))
  else if n = 62 then '+'
  else '/'

/-- The standard base64 alphabet: character to sextet value; `none` for
characters outside the alphabet (including the padding `=`). -/
def b64DecChar (c : Char) : Option ℕ :=
  if 65 ≤ c.toNat ∧ c.toNat ≤ 90 then some (c.toNat - 65)
  else if 97 ≤ c.toNat ∧ c.toNat ≤ 122 then some (c.toNat - 71)
  else if 48 ≤ c.toNat ∧ c.toNat ≤ 57 then some (c.toNat + 4)
  else if c = '+' then some 62
  else if c = '/' then some 63
  else none

/-- `BASE64_STANDARD.encode`: three input bytes become four alphabet
characters; a final chunk of one or two bytes is padded with `=`. -/
def b64Encode : List ℕ → List Char
  | [] => []
  | [a] => [b64EncChar (a / 4), b64EncChar (a % 4 * 16), '=', '=']
  | [a, b] =>
      [b64EncChar (a / 4), b64EncChar (a % 4 * 16 + b / 16),
       b64EncChar (b % 16 * 4), '=']
  | a :: b :: c :: rest =>
      b64EncChar (a / 4) :: b64EncChar (a % 4 * 16 + b / 16) ::
      b64EncChar (b % 16 * 4 + c / 64) :: b64EncChar (c % 64) :: b64Encode rest

/-- Decode the final four-character chunk of a base64 string: `=` padding may
appear in the last two positions; nonzero trailing bits are rejected (the
`base64` crate's default `DecodeAllowTrailingBits(false)`). -/
def b64DecodeLast (c1 c2 c3 c4 : Char) : Option (List ℕ) :=
  if c3 = '=' then
    if c4 = '=' then
      match b64DecChar c1, b64DecChar c2 with
      | some s1, some s2 =>
          if s2 % 16 = 0 then some [s1 * 4 + s2 / 16] else none
      | _, _ => none
    else none
  else if c4 = '=' then
    match b64DecChar c1, b64DecChar c2, b64DecChar c3 with
    | some s1, some s2, some s3 =>
        if s3 % 4 = 0 then
          some [s1 * 4 + s2 / 16, s2 % 16 * 16 + s3 / 4]
        else none
    | _, _, _ => none
  else
    match b64DecChar c1, b64DecChar c2, b64DecChar c3, b64DecChar c4 with
    | some s1, some s2, some s3, some s4 =>
        some [s1 * 4 + s2 / 16, s2 % 16 * 16 + s3 / 4, s3 % 4 * 64 + s4]
    | _, _, _, _ => none

/-- `BASE64_STANDARD.decode`: the input must be a sequence of four-character
chunks; padding is only accepted in the final chunk. -/
def b64Decode : List Char → Option (List ℕ)
  | [] => some []
  | c1 :: c2 :: c3 :: c4 :: rest =>
      match rest with
      | [] => b64DecodeLast c1 c2 c3 c4
      | _ :: _ =>
          match b64DecChar c1, b64DecChar c2, b64DecChar c3, b64DecChar c4,
              b64Decode rest with
          | some s1, some s2, some s3, some s4, some tail =>
              some ((s1 * 4 + s2 / 16) :: (s2 % 16 * 16 + s3 / 4) ::
                    (s3 % 4 * 64 + s4) :: tail)
          | _, _, _, _, _ => none
  | _ => none

/-- Decoding the alphabet inverts encoding on every sextet value. -/
theorem b64DecChar_encChar : ∀ n < 64, b64DecChar (b64EncChar n) = some n := by
  decide

/-- No sextet value encodes to the padding character. -/
theorem b64EncChar_ne_pad : ∀ n < 64, b64EncChar n ≠ '=' := by
  decide

/-- `b64Encode` returns the empty string only on empty input. -/
theorem b64Encode_ne_nil {l : List ℕ} (h : l ≠ []) : b64Encode l ≠ [] := by
  match l with
  | [] => exact absurd rfl h
  | [a] => simp [b64Encode]
  | [a, b] => simp [b64Encode]
  | a :: b :: c :: rest => simp [b64Encode]

/-- Round trip of the byte-level base64 codec: decoding an encoded byte
sequence recovers it exactly, for any sequence of bytes. -/
theorem b64Decode_encode (l : List ℕ) (h : ∀ x ∈ l, x < 256) :
    b64Decode (b64Encode l) = some l := by
  induction l using b64Encode.induct with
  | case1 => simp [b64Encode, b64Decode]
  | case2 a =>
    have ha : a < 256 := h a (by simp)
    have h1 : a / 4 < 64 := by omega
    have h2 : a % 4 * 16 < 64 := by omega
    have hguard : a % 4 * 16 % 16 = 0 := by omega
    have e1 : a / 4 * 4 + a % 4 * 16 / 16 = a := by omega
    simp [b64Encode, b64Decode, b64DecodeLast,
      b64DecChar_encChar _ h1, b64DecChar_encChar _ h2, hguard, e1]
    omega
  | case3 a b =>
    have ha : a < 256 := h a (by simp)
    have hb : b < 256 := h b (by simp)
    have h1 : a / 4 < 64 := by omega
    have h2 : a % 4 * 16 + b / 16 < 64 := by omega
    have h3 : b % 16 * 4 < 64 := by omega
    have hguard : b % 16 * 4 % 4 = 0 := by omega
    have e1 : a / 4 * 4 + (a % 4 * 16 + b / 16) / 16 = a := by omega
    have e2 : (a % 4 * 16 + b / 16) % 16 * 16 + b % 16 * 4 / 4 = b := by omega
    simp [b64Encode, b64Decode, b64DecodeLast, b64EncChar_ne_pad _ h3,
      b64DecChar_encChar _ h1, b64DecChar_encChar _ h2, b64DecChar_encChar _ h3,
      hguard, e1, e2]
    omega
  | case4 a b c rest ih =>
    have ha : a < 256 := h a (by simp)
    have hb : b < 256 := h b (by simp)
    have hc : c < 256 := h c (by simp)
    have hrest : ∀ x ∈ rest, x < 256 := fun x hx => h x (by simp [hx])
    have h1 : a / 4 < 64 := by omega
    have h2 : a % 4 * 16 + b / 16 < 64 := by omega
    have h3 : b % 16 * 4 + c / 64 < 64 := by omega
    have h4 : c % 64 < 64 := by omega
    have e1 : a / 4 * 4 + (a % 4 * 16 + b / 16) / 16 = a := by omega
    have e2 : (a % 4 * 16 + b / 16) % 16 * 16 + (b % 16 * 4 + c / 64) / 4 = b := by
      omega
    have e3 : (b % 16 * 4 + c / 64) % 4 * 64 + c % 64 = c := by omega
    by_cases hrn : rest = []
    · subst hrn
      simp [b64Encode, b64Decode, b64DecodeLast,
        b64EncChar_ne_pad _ h3, b64EncChar_ne_pad _ h4,
        b64DecChar_encChar _ h1, b64DecChar_encChar _ h2,
        b64DecChar_encChar _ h3, b64DecChar_encChar _ h4, e1, e2, e3]
    · obtain ⟨y, ys, hys⟩ := List.exists_cons_of_ne_nil (b64Encode_ne_nil hrn)
      have ihr := ih hrest
      rw [hys] at ihr
      simp only [b64Encode, b64Decode, hys,
        b64DecChar_encChar _ h1, b64DecChar_encChar _ h2,
        b64DecChar_encChar _ h3, b64DecChar_encChar _ h4, ihr]
      rw [e1, e2, e3]

/-! ## `SerialData` and `VCodeSig` -/

/-- `SerialData`: a chunk of serial I/O; `data` is base64-encoded. -/
structure SerialData : Type where
  channel : U32
  data : String
deriving DecidableEq

/-- `SerialData::new(channel, bytes)` base64-encodes the bytes. -/
def SerialData.new (channel : U32) (bytes : List ℕ) : SerialData :=
  { channel := channel, data := String.mk (b64Encode bytes) }

/-- `SerialData::to_bytes`: base64-decode the payload (`Ok` ↦ `some`). -/
def SerialData.to_bytes (s : SerialData) : Option (List ℕ) :=
  b64Decode s.data.data

/-- `VCodeSig`: base64-encoded program metadata (newtype over `String`). -/
structure VCodeSig : Type where
  sig : String
deriving DecidableEq

/-- `VCodeSig::new(bytes)` base64-encodes the bytes. -/
def VCodeSig.new (bytes : List ℕ) : VCodeSig :=
  ⟨String.mk (b64Encode bytes)⟩

/-- `VCodeSig::to_bytes`: base64-decode the payload (`Ok` ↦ `some`). -/
def VCodeSig.to_bytes (v : VCodeSig) : Option (List ℕ) :=
  b64Decode v.sig.data

/-! ## Protocol data types (`src/lib.rs`) -/

/-- `mint::Point2<i32>`: a 2D point with named `x`/`y` fields. -/
structure Point2 : Type where
  x : I32
  y : I32
deriving DecidableEq

/-- `Rect`: a rectangle given by two corner points.  The struct carries no
invariant: any pair of corners is constructible. -/
structure Rect : Type where
  top_left : Point2
  bottom_right : Point2
deriving DecidableEq

/-- `Color(pub u32)`: a packed `0x00RRGGBB` color (newtype over `u32`). -/
structure Color : Type where
  val : U32
deriving DecidableEq

/-- `rgb::RGB8`: one byte per channel. -/
structure RGB8 : Type where
  r : U8
  g : U8
  b : U8
deriving DecidableEq

/-- `impl From<RGB8> for Color`:
`Color(u32::from_be_bytes([0, rgb.r, rgb.g, rgb.b]))`. -/
def Color.fromRGB8 (rgb : RGB8) : Color :=
  ⟨⟨rgb.r.val * 2 ^ 16 + rgb.g.val * 2 ^ 8 + rgb.b.val, by
    have hr := rgb.r.property
    have hg := rgb.g.property
    have hb := rgb.b.property
    omega⟩⟩

/-- `impl From<Color> for RGB8`: `let [_, r, g, b] = color.0.to_be_bytes()`;
the top byte is discarded. -/
def RGB8.fromColor (color : Color) : RGB8 :=
  ⟨⟨color.val.val / 2 ^ 16 % 2 ^ 8, by omega⟩,
   ⟨color.val.val / 2 ^ 8 % 2 ^ 8, by omega⟩,
   ⟨color.val.val % 2 ^ 8, by omega⟩⟩

/-- `MotorGearset`: the gearset of a VEX V5 motor. -/
inductive MotorGearset : Type where
  | Red | Green | Blue
deriving DecidableEq

/-- `MotorBrakeMode`: the brake mode of a VEX V5 motor. -/
inductive MotorBrakeMode : Type where
  | Coast | Brake | Hold
deriving DecidableEq

/-- `LinkMode`: the mode of a VEXlink-configured radio. -/
inductive LinkMode : Type where
  | Manager | Worker
deriving DecidableEq

/-- `TouchEvent`: a touchscreen event kind. -/
inductive TouchEvent : Type where
  | Released | Pressed | Held
deriving DecidableEq

/-- `CompMode`: the current stage of a competition (`#[default]` on
`Driver`). -/
inductive CompMode : Type where
  | Auto | Driver
deriving DecidableEq

/-- `impl Default for CompMode` (derived; `#[default]` marks `Driver`). -/
def CompMode.default : CompMode := CompMode.Driver

/-- `LogLevel`: the importance level of a log message. -/
inductive LogLevel : Type where
  | Trace | Info | Warn | Error
deriving DecidableEq

/-- `SmartPort(pub u8)`: an RJ9 4p4c "Smart" port. -/
structure SmartPort : Type where
  port : U8
deriving DecidableEq

/-- `AdiPort(pub u8)`: a 3-wire "ADI" port. -/
structure AdiPort : Type where
  port : U8
deriving DecidableEq

/-- `Port`: an arbitrary port on the VEX V5. -/
inductive Port : Type where
  | Smart (p : SmartPort)
  | Adi (p : AdiPort)
deriving DecidableEq

/-- `V5FontFamily` (`#[default]` on `UserMono`). -/
inductive V5FontFamily : Type where
  | UserMono | TimerMono
deriving DecidableEq

/-- `V5FontSize` (`#[default]` on `Normal`). -/
inductive V5FontSize : Type where
  | Small | Normal | Large
deriving DecidableEq

/-- `V5Text`: a piece of text with font settings. -/
structure V5Text : Type where
  data : String
  font_family : V5FontFamily
  font_size : V5FontSize
deriving DecidableEq

/-- `TextMetrics`: width/height in `usize`. -/
structure TextMetrics : Type where
  width : Usize
  height : Usize
deriving DecidableEq

/-- `TextLocation`: where text is written on the screen. -/
inductive TextLocation : Type where
  | Coordinates (point : Point2)
  | Line (line : I32)
deriving DecidableEq

/-- `ScrollLocation`: what part of the screen scrolls. -/
inductive ScrollLocation : Type where
  | Line (line : I32)
  | Rectangle (top_left : Point2) (bottom_right : Point2)
deriving DecidableEq

/-- `Shape`: a drawable shape.  The Rust field `end` of `Line` is a Lean
keyword and is rendered as `end_`. -/
inductive Shape : Type where
  | Rectangle (top_left : Point2) (bottom_right : Point2)
  | Circle (center : Point2) (radius : U16)
  | Pixel (pos : Point2)
  | Line (start : Point2) (end_ : Point2)
deriving DecidableEq

/-- `DrawCommand`: an instruction for drawing to the robot LCD screen.  The
Rust field of `Write` named like the Lean keyword for opaque constants is
rendered as `opaqueFlag`. -/
inductive DrawCommand : Type where
  | Fill (shape : Shape)
  | Stroke (shape : Shape)
  | CopyBuffer (top_left : Point2) (bottom_right : Point2)
      (stride : NonZeroU16) (buffer : String)
  | Write (text : V5Text) (location : TextLocation) (opaqueFlag : Bool)
      (background : Color)
deriving DecidableEq

/-- `DeviceStatus`: the current state of a V5 peripheral
(`#[non_exhaustive]`; only `Motor` exists today). -/
inductive DeviceStatus : Type where
  | Motor (velocity : F64) (reversed : Bool) (power_draw : F64)
      (torque_output : F64) (flags : I32) (position : F64)
      (target_position : F64) (voltage : F64) (gearset : MotorGearset)
      (brake_mode : MotorBrakeMode)
deriving DecidableEq

/-- `Device`: the configuration of a V5 peripheral (`#[non_exhaustive]`). -/
inductive Device : Type where
  | Motor (physical_gearset : MotorGearset) (moment_of_inertia : F64)
deriving DecidableEq

/-- `RobotState`: a fieldless (`#[non_exhaustive]`) unit struct. -/
structure RobotState : Type where
deriving DecidableEq

/-- `Battery`: battery status and statistics. -/
structure Battery : Type where
  voltage : F64
  current : F64
  capacity : F64
deriving DecidableEq

/-- `CompetitionMode`: the competition-control state. -/
structure CompetitionMode : Type where
  enabled : Bool
  connected : Bool
  mode : CompMode
  is_competition : Bool
deriving DecidableEq

/-- `impl Default for CompetitionMode` in `src/lib.rs`. -/
def CompetitionMode.default : CompetitionMode :=
  { enabled := true
    connected := false
    mode := CompMode.Driver
    is_competition := false }

/-- `ControllerState`: the raw state of a VEX V5 controller. -/
structure ControllerState : Type where
  axis1 : I32
  axis2 : I32
  axis3 : I32
  axis4 : I32
  button_l1 : Bool
  button_l2 : Bool
  button_r1 : Bool
  button_r2 : Bool
  button_up : Bool
  button_down : Bool
  button_left : Bool
  button_right : Bool
  button_x : Bool
  button_b : Bool
  button_y : Bool
  button_a : Bool
  button_sel : Bool
  battery_level : I32
  button_all : Bool
  flags : I32
  battery_capacity : I32
deriving DecidableEq

/-- `ControllerUpdate`: a method of retrieving a controller's state. -/
inductive ControllerUpdate : Type where
  | Raw (state : ControllerState)
  | UUID (uuid : String)
deriving DecidableEq

/-- `Event`: a message sent from the simulator to the frontend.  `PathBuf`
does not occur here; `r#override` is rendered as `override`. -/
inductive Event : Type where
  | Handshake (version : I32) (extensions : List String)
  | ScreenDraw (command : DrawCommand) (color : Color) (clip_region : Rect)
  | ScreenScroll (location : ScrollLocation) (lines : I32) (background : Color)
      (clip_region : Rect)
  | ScreenClear (color : Color) (clip_region : Rect)
  | ScreenDoubleBufferMode (enable : Bool)
  | ScreenRender
  | VCodeSig (sig : VCodeSig)
  | Ready
  | Exited
  | Serial (data : SerialData)
  | DeviceUpdate (status : DeviceStatus) (port : Port)
  | Battery (battery : Battery)
  | RobotPose (x : F64) (y : F64)
  | RobotState (state : RobotState)
  | Log (level : LogLevel) (message : String)
  | VEXLinkConnect (port : SmartPort) (id : String) (mode : LinkMode)
      (override : Bool)
  | VEXLinkDisconnect (port : SmartPort)
  | TextMetricsRequest (text : V5Text)
deriving DecidableEq

/-- `Command`: a message sent from the frontend to the simulator.  `PathBuf`
(the `root` of `USD`) is modelled as `String` (serde serializes a `PathBuf`
as its UTF-8 string form). -/
inductive Command : Type where
  | Handshake (version : I32) (extensions : List String)
  | Touch (pos : Point2) (event : TouchEvent)
  | ControllerUpdate (primary : Option ControllerUpdate)
      (partner : Option ControllerUpdate)
  | USD (root : Option String)
  | VEXLinkOpened (port : SmartPort) (mode : LinkMode)
  | VEXLinkClosed (port : SmartPort)
  | CompetitionMode (mode : CompetitionMode)
  | ConfigureDevice (port : Port) (device : Device)
  | AdiInput (port : AdiPort) (voltage : F64)
  | StartExecution
  | SetBatteryCapacity (capacity : F64)
  | SetTextMetrics (text : V5Text) (metrics : TextMetrics)
  | Serial (data : SerialData)
deriving DecidableEq

/-! ## Encoders

Shallow embedding of the serde-derived `Serialize` impls, producing the
serde_json `Value` tree: externally tagged enums (struct variants become a
single-key object whose value is an object of the fields; tuple variants an
array; newtype variants the bare inner value; unit variants the bare variant
name string), newtype structs become the inner value, unit structs become
`null`, `Option` becomes `null`/inner. -/

/-- serde encoding of `i32`. -/
def encodeI32 (n : I32) : Json := .num (n.val : ℚ)

/-- serde encoding of `u8`. -/
def encodeU8 (n : U8) : Json := .num (n.val : ℚ)

/-- serde encoding of `u16`. -/
def encodeU16 (n : U16) : Json := .num (n.val : ℚ)

/-- serde encoding of `u32`. -/
def encodeU32 (n : U32) : Json := .num (n.val : ℚ)

/-- serde encoding of `usize`. -/
def encodeUsize (n : Usize) : Json := .num (n.val : ℚ)

/-- serde encoding of `NonZeroU16` (bare number). -/
def encodeNonZeroU16 (n : NonZeroU16) : Json := .num (n.val : ℚ)

/-- serde_json encoding of `f64`: non-finite doubles become `null`. -/
def encodeF64 : F64 → Json
  | .finite q => .num q
  | .notFinite => .null

/-- serde encoding of `Vec<String>`. -/
def encodeStringList (l : List String) : Json := .arr (l.map Json.str)

/-- serde encoding of `Option<T>` given an encoder for `T`. -/
def encodeOption (f : α → Json) : Option α → Json
  | none => .null
  | some v => f v

/-- serde encoding of `mint::Point2<i32>` (a struct with fields `x`, `y`). -/
def encodePoint2 (p : Point2) : Json :=
  .obj [("x", encodeI32 p.x), ("y", encodeI32 p.y)]

/-- serde encoding of `Rect`. -/
def encodeRect (r : Rect) : Json :=
  .obj [("top_left", encodePoint2 r.top_left),
        ("bottom_right", encodePoint2 r.bottom_right)]

/-- serde encoding of `Color` (newtype struct: the bare packed `u32`). -/
def encodeColor (c : Color) : Json := encodeU32 c.val

/-- serde encoding of `MotorGearset` (unit variants: bare name strings). -/
def encodeMotorGearset : MotorGearset → Json
  | .Red => .str "Red"
  | .Green => .str "Green"
  | .Blue => .str "Blue"

/-- serde encoding of `MotorBrakeMode`. -/
def encodeMotorBrakeMode : MotorBrakeMode → Json
  | .Coast => .str "Coast"
  | .Brake => .str "Brake"
  | .Hold => .str "Hold"

/-- serde encoding of `LinkMode`. -/
def encodeLinkMode : LinkMode → Json
  | .Manager => .str "Manager"
  | .Worker => .str "Worker"

/-- serde encoding of `TouchEvent`. -/
def encodeTouchEvent : TouchEvent → Json
  | .Released => .str "Released"
  | .Pressed => .str "Pressed"
  | .Held => .str "Held"

/-- serde encoding of `CompMode`. -/
def encodeCompMode : CompMode → Json
  | .Auto => .str "Auto"
  | .Driver => .str "Driver"

/-- serde encoding of `LogLevel`. -/
def encodeLogLevel : LogLevel → Json
  | .Trace => .str "Trace"
  | .Info => .str "Info"
  | .Warn => .str "Warn"
  | .Error => .str "Error"

/-- serde encoding of `SmartPort` (newtype struct: the bare `u8`). -/
def encodeSmartPort (p : SmartPort) : Json := encodeU8 p.port

/-- serde encoding of `AdiPort` (newtype struct: the bare `u8`). -/
def encodeAdiPort (p : AdiPort) : Json := encodeU8 p.port

/-- serde encoding of `Port` (newtype variants). -/
def encodePort : Port → Json
  | .Smart p => .obj [("Smart", encodeSmartPort p)]
  | .Adi p => .obj [("Adi", encodeAdiPort p)]

/-- serde encoding of `V5FontFamily`. -/
def encodeV5FontFamily : V5FontFamily → Json
  | .UserMono => .str "UserMono"
  | .TimerMono => .str "TimerMono"

/-- serde encoding of `V5FontSize`. -/
def encodeV5FontSize : V5FontSize → Json
  | .Small => .str "Small"
  | .Normal => .str "Normal"
  | .Large => .str "Large"

/-- serde encoding of `V5Text`. -/
def encodeV5Text (t : V5Text) : Json :=
  .obj [("data", .str t.data),
        ("font_family", encodeV5FontFamily t.font_family),
        ("font_size", encodeV5FontSize t.font_size)]

/-- serde encoding of `TextMetrics`. -/
def encodeTextMetrics (m : TextMetrics) : Json :=
  .obj [("width", encodeUsize m.width), ("height", encodeUsize m.height)]

/-- serde encoding of `TextLocation`. -/
def encodeTextLocation : TextLocation → Json
  | .Coordinates point => .obj [("Coordinates", .obj [("point", encodePoint2 point)])]
  | .Line line => .obj [("Line", .obj [("line", encodeI32 line)])]

/-- serde encoding of `ScrollLocation`. -/
def encodeScrollLocation : ScrollLocation → Json
  | .Line line => .obj [("Line", .obj [("line", encodeI32 line)])]
  | .Rectangle tl br =>
      .obj [("Rectangle", .obj [("top_left", encodePoint2 tl),
                                ("bottom_right", encodePoint2 br)])]

/-- serde encoding of `Shape`. -/
def encodeShape : Shape → Json
  | .Rectangle tl br =>
      .obj [("Rectangle", .obj [("top_left", encodePoint2 tl),
                                ("bottom_right", encodePoint2 br)])]
  | .Circle center radius =>
      .obj [("Circle", .obj [("center", encodePoint2 center),
                             ("radius", encodeU16 radius)])]
  | .Pixel pos => .obj [("Pixel", .obj [("pos", encodePoint2 pos)])]
  | .Line s e =>
      .obj [("Line", .obj [("start", encodePoint2 s), ("end", encodePoint2 e)])]

/-- serde encoding of `DrawCommand`. -/
def encodeDrawCommand : DrawCommand → Json
  | .Fill shape => .obj [("Fill", .obj [("shape", encodeShape shape)])]
  | .Stroke shape => .obj [("Stroke", .obj [("shape", encodeShape shape)])]
  | .CopyBuffer tl br stride buffer =>
      .obj [("CopyBuffer", .obj [("top_left", encodePoint2 tl),
                                 ("bottom_right", encodePoint2 br),
                                 ("stride", encodeNonZeroU16 stride),
                                 ("buffer", .str buffer)])]
  | .Write text location opaqueFlag background =>
      .obj [("Write", .obj [("text", encodeV5Text text),
                            ("location", encodeTextLocation location),
                            ("opaque", .bool opaqueFlag),
                            ("background", encodeColor background)])]

/-- serde encoding of `DeviceStatus`. -/
def encodeDeviceStatus : DeviceStatus → Json
  | .Motor velocity reversed power_draw torque_output flags position
      target_position voltage gearset brake_mode =>
      .obj [("Motor", .obj [("velocity", encodeF64 velocity),
                            ("reversed", .bool reversed),
                            ("power_draw", encodeF64 power_draw),
                            ("torque_output", encodeF64 torque_output),
                            ("flags", encodeI32 flags),
                            ("position", encodeF64 position),
                            ("target_position", encodeF64 target_position),
                            ("voltage", encodeF64 voltage),
                            ("gearset", encodeMotorGearset gearset),
                            ("brake_mode", encodeMotorBrakeMode brake_mode)])]

/-- serde encoding of `Device`. -/
def encodeDevice : Device → Json
  | .Motor physical_gearset moment_of_inertia =>
      .obj [("Motor", .obj [("physical_gearset", encodeMotorGearset physical_gearset),
                            ("moment_of_inertia", encodeF64 moment_of_inertia)])]

/-- serde encoding of `RobotState` (unit struct: `null`). -/
def encodeRobotState (_ : RobotState) : Json := .null

/-- serde encoding of `Battery`. -/
def encodeBattery (b : Battery) : Json :=
  .obj [("voltage", encodeF64 b.voltage), ("current", encodeF64 b.current),
        ("capacity", encodeF64 b.capacity)]

/-- serde encoding of `CompetitionMode`. -/
def encodeCompetitionMode (m : CompetitionMode) : Json :=
  .obj [("enabled", .bool m.enabled), ("connected", .bool m.connected),
        ("mode", encodeCompMode m.mode), ("is_competition", .bool m.is_competition)]

/-- serde encoding of `ControllerState`. -/
def encodeControllerState (s : ControllerState) : Json :=
  .obj [("axis1", encodeI32 s.axis1), ("axis2", encodeI32 s.axis2),
        ("axis3", encodeI32 s.axis3), ("axis4", encodeI32 s.axis4),
        ("button_l1", .bool s.button_l1), ("button_l2", .bool s.button_l2),
        ("button_r1", .bool s.button_r1), ("button_r2", .bool s.button_r2),
        ("button_up", .bool s.button_up), ("button_down", .bool s.button_down),
        ("button_left", .bool s.button_left), ("button_right", .bool s.button_right),
        ("button_x", .bool s.button_x), ("button_b", .bool s.button_b),
        ("button_y", .bool s.button_y), ("button_a", .bool s.button_a),
        ("button_sel", .bool s.button_sel),
        ("battery_level", encodeI32 s.battery_level),
        ("button_all", .bool s.button_all), ("flags", encodeI32 s.flags),
        ("battery_capacity", encodeI32 s.battery_capacity)]

/-- serde encoding of `ControllerUpdate` (newtype variants). -/
def encodeControllerUpdate : ControllerUpdate → Json
  | .Raw state => .obj [("Raw", encodeControllerState state)]
  | .UUID uuid => .obj [("UUID", .str uuid)]

/-- serde encoding of `SerialData`. -/
def encodeSerialData (s : SerialData) : Json :=
  .obj [("channel", encodeU32 s.channel), ("data", .str s.data)]

/-- serde encoding of `VCodeSig` (newtype struct: the bare string). -/
def encodeVCodeSig (v : VCodeSig) : Json := .str v.sig

/-- serde encoding of `Event` (externally tagged). -/
def encodeEvent : Event → Json
  | .Handshake version extensions =>
      .obj [("Handshake", .obj [("version", encodeI32 version),
                                ("extensions", encodeStringList extensions)])]
  | .ScreenDraw command color clip_region =>
      .obj [("ScreenDraw", .obj [("command", encodeDrawCommand command),
                                 ("color", encodeColor color),
                                 ("clip_region", encodeRect clip_region)])]
  | .ScreenScroll location lines background clip_region =>
      .obj [("ScreenScroll", .obj [("location", encodeScrollLocation location),
                                   ("lines", encodeI32 lines),
                                   ("background", encodeColor background),
                                   ("clip_region", encodeRect clip_region)])]
  | .ScreenClear color clip_region =>
      .obj [("ScreenClear", .obj [("color", encodeColor color),
                                  ("clip_region", encodeRect clip_region)])]
  | .ScreenDoubleBufferMode enable =>
      .obj [("ScreenDoubleBufferMode", .obj [("enable", .bool enable)])]
  | .ScreenRender => .str "ScreenRender"
  | .VCodeSig sig => .obj [("VCodeSig", encodeVCodeSig sig)]
  | .Ready => .str "Ready"
  | .Exited => .str "Exited"
  | .Serial data => .obj [("Serial", encodeSerialData data)]
  | .DeviceUpdate status port =>
      .obj [("DeviceUpdate", .obj [("status", encodeDeviceStatus status),
                                   ("port", encodePort port)])]
  | .Battery battery => .obj [("Battery", encodeBattery battery)]
  | .RobotPose x y =>
      .obj [("RobotPose", .obj [("x", encodeF64 x), ("y", encodeF64 y)])]
  | .RobotState state => .obj [("RobotState", encodeRobotState state)]
  | .Log level message =>
      .obj [("Log", .obj [("level", encodeLogLevel level),
                          ("message", .str message)])]
  | .VEXLinkConnect port id mode override =>
      .obj [("VEXLinkConnect", .obj [("port", encodeSmartPort port),
                                     ("id", .str id),
                                     ("mode", encodeLinkMode mode),
                                     ("override", .bool override)])]
  | .VEXLinkDisconnect port =>
      .obj [("VEXLinkDisconnect", .obj [("port", encodeSmartPort port)])]
  | .TextMetricsRequest text =>
      .obj [("TextMetricsRequest", .obj [("text", encodeV5Text text)])]

/-- serde encoding of `Command` (externally tagged; `ControllerUpdate` is a
two-field tuple variant and becomes a two-element array). -/
def encodeCommand : Command → Json
  | .Handshake version extensions =>
      .obj [("Handshake", .obj [("version", encodeI32 version),
                                ("extensions", encodeStringList extensions)])]
  | .Touch pos event =>
      .obj [("Touch", .obj [("pos", encodePoint2 pos),
                            ("event", encodeTouchEvent event)])]
  | .ControllerUpdate primary partner =>
      .obj [("ControllerUpdate",
             .arr [encodeOption encodeControllerUpdate primary,
                   encodeOption encodeControllerUpdate partner])]
  | .USD root => .obj [("USD", .obj [("root", encodeOption Json.str root)])]
  | .VEXLinkOpened port mode =>
      .obj [("VEXLinkOpened", .obj [("port", encodeSmartPort port),
                                    ("mode", encodeLinkMode mode)])]
  | .VEXLinkClosed port =>
      .obj [("VEXLinkClosed", .obj [("port", encodeSmartPort port)])]
  | .CompetitionMode mode =>
      .obj [("CompetitionMode", encodeCompetitionMode mode)]
  | .ConfigureDevice port device =>
      .obj [("ConfigureDevice", .obj [("port", encodePort port),
                                      ("device", encodeDevice device)])]
  | .AdiInput port voltage =>
      .obj [("AdiInput", .obj [("port", encodeAdiPort port),
                               ("voltage", encodeF64 voltage)])]
  | .StartExecution => .str "StartExecution"
  | .SetBatteryCapacity capacity =>
      .obj [("SetBatteryCapacity", .obj [("capacity", encodeF64 capacity)])]
  | .SetTextMetrics text metrics =>
      .obj [("SetTextMetrics", .obj [("text", encodeV5Text text),
                                     ("metrics", encodeTextMetrics metrics)])]
  | .Serial data => .obj [("Serial", encodeSerialData data)]

/-! ## Decoders

Shallow embedding of the serde-derived `Deserialize` impls on the canonical
encoded shape.  Failure (`serde_json::Error`) is modelled as `none`. -/

/-- serde decoding of `bool`. -/
def decodeBool : Json → Option Bool
  | .bool b => some b
  | _ => none

/-- serde decoding of `String`. -/
def decodeString : Json → Option String
  | .str s => some s
  | _ => none

/-- serde decoding of `i32`: an integral JSON number in `i32` range. -/
def decodeI32 : Json → Option I32
  | .num q =>
      if h : q.den = 1 ∧ -(2 ^ 31) ≤ q.num ∧ q.num < 2 ^ 31 then
        some ⟨q.num, h.2⟩
      else none
  | _ => none

/-- serde decoding of `u8`. -/
def decodeU8 : Json → Option U8
  | .num q =>
      if h : q.den = 1 ∧ 0 ≤ q.num ∧ q.num < 2 ^ 8 then
        some ⟨q.num.toNat, by omega⟩
      else none
  | _ => none

/-- serde decoding of `u16`. -/
def decodeU16 : Json → Option U16
  | .num q =>
      if h : q.den = 1 ∧ 0 ≤ q.num ∧ q.num < 2 ^ 16 then
        some ⟨q.num.toNat, by omega⟩
      else none
  | _ => none

/-- serde decoding of `u32`. -/
def decodeU32 : Json → Option U32
  | .num q =>
      if h : q.den = 1 ∧ 0 ≤ q.num ∧ q.num < 2 ^ 32 then
        some ⟨q.num.toNat, by omega⟩
      else none
  | _ => none

/-- serde decoding of `usize`. -/
def decodeUsize : Json → Option Usize
  | .num q =>
      if h : q.den = 1 ∧ 0 ≤ q.num ∧ q.num < 2 ^ 64 then
        some ⟨q.num.toNat, by omega⟩
      else none
  | _ => none

/-- serde decoding of `NonZeroU16`: zero is rejected. -/
def decodeNonZeroU16 : Json → Option NonZeroU16
  | .num q =>
      if h : q.den = 1 ∧ 0 < q.num ∧ q.num < 2 ^ 16 then
        some ⟨q.num.toNat, by omega⟩
      else none
  | _ => none

/-- serde_json decoding of `f64`: any JSON number; `null` (the encoding of a
non-finite double) is not a number and fails. -/
def decodeF64 : Json → Option F64
  | .num q => some (.finite q)
  | _ => none

/-- serde decoding of a list of JSON values as `Vec<String>` elements. -/
def decodeStrings : List Json → Option (List String)
  | [] => some []
  | x :: xs =>
      match decodeString x, decodeStrings xs with
      | some s, some rest => some (s :: rest)
      | _, _ => none

/-- serde decoding of `Vec<String>`. -/
def decodeStringList : Json → Option (List String)
  | .arr xs => decodeStrings xs
  | _ => none

/-- serde decoding of `Option<T>` given a decoder for `T`: `null` is `None`,
anything else must decode as `T`. -/
def decodeOption (f : Json → Option α) : Json → Option (Option α)
  | .null => some none
  | j =>
      match f j with
      | some v => some (some v)
      | none => none

/-- serde decoding of `mint::Point2<i32>`. -/
def decodePoint2 : Json → Option Point2
  | .obj [("x", xj), ("y", yj)] =>
      match decodeI32 xj, decodeI32 yj with
      | some x, some y => some ⟨x, y⟩
      | _, _ => none
  | _ => none

/-- serde decoding of `Rect`: no geometric validation is performed (the
derived impl accepts any pair of corners). -/
def decodeRect : Json → Option Rect
  | .obj [("top_left", tlj), ("bottom_right", brj)] =>
      match decodePoint2 tlj, decodePoint2 brj with
      | some tl, some br => some ⟨tl, br⟩
      | _, _ => none
  | _ => none

/-- serde decoding of `Color`. -/
def decodeColor (j : Json) : Option Color :=
  (decodeU32 j).map Color.mk

/-- serde decoding of `MotorGearset`. -/
def decodeMotorGearset : Json → Option MotorGearset
  | .str "Red" => some .Red
  | .str "Green" => some .Green
  | .str "Blue" => some .Blue
  | _ => none

/-- serde decoding of `MotorBrakeMode`. -/
def decodeMotorBrakeMode : Json → Option MotorBrakeMode
  | .str "Coast" => some .Coast
  | .str "Brake" => some .Brake
  | .str "Hold" => some .Hold
  | _ => none

/-- serde decoding of `LinkMode`. -/
def decodeLinkMode : Json → Option LinkMode
  | .str "Manager" => some .Manager
  | .str "Worker" => some .Worker
  | _ => none

/-- serde decoding of `TouchEvent`. -/
def decodeTouchEvent : Json → Option TouchEvent
  | .str "Released" => some .Released
  | .str "Pressed" => some .Pressed
  | .str "Held" => some .Held
  | _ => none

/-- serde decoding of `CompMode`. -/
def decodeCompMode : Json → Option CompMode
  | .str "Auto" => some .Auto
  | .str "Driver" => some .Driver
  | _ => none

/-- serde decoding of `LogLevel`. -/
def decodeLogLevel : Json → Option LogLevel
  | .str "Trace" => some .Trace
  | .str "Info" => some .Info
  | .str "Warn" => some .Warn
  | .str "Error" => some .Error
  | _ => none

/-- serde decoding of `SmartPort`. -/
def decodeSmartPort (j : Json) : Option SmartPort :=
  match decodeU8 j with
  | some v => some ⟨v⟩
  | none => none

/-- serde decoding of `AdiPort`. -/
def decodeAdiPort (j : Json) : Option AdiPort :=
  match decodeU8 j with
  | some v => some ⟨v⟩
  | none => none

/-- serde decoding of `Port`. -/
def decodePort : Json → Option Port
  | .obj [("Smart", pj)] =>
      match decodeSmartPort pj with
      | some p => some (.Smart p)
      | none => none
  | .obj [("Adi", pj)] =>
      match decodeAdiPort pj with
      | some p => some (.Adi p)
      | none => none
  | _ => none

/-- serde decoding of `V5FontFamily`. -/
def decodeV5FontFamily : Json → Option V5FontFamily
  | .str "UserMono" => some .UserMono
  | .str "TimerMono" => some .TimerMono
  | _ => none

/-- serde decoding of `V5FontSize`. -/
def decodeV5FontSize : Json → Option V5FontSize
  | .str "Small" => some .Small
  | .str "Normal" => some .Normal
  | .str "Large" => some .Large
  | _ => none

/-- serde decoding of `V5Text`. -/
def decodeV5Text : Json → Option V5Text
  | .obj [("data", dj), ("font_family", fj), ("font_size", sj)] =>
      match decodeString dj, decodeV5FontFamily fj, decodeV5FontSize sj with
      | some d, some f, some s => some ⟨d, f, s⟩
      | _, _, _ => none
  | _ => none

/-- serde decoding of `TextMetrics`. -/
def decodeTextMetrics : Json → Option TextMetrics
  | .obj [("width", wj), ("height", hj)] =>
      match decodeUsize wj, decodeUsize hj with
      | some w, some h => some ⟨w, h⟩
      | _, _ => none
  | _ => none

/-- serde decoding of `TextLocation`. -/
def decodeTextLocation : Json → Option TextLocation
  | .obj [("Coordinates", .obj [("point", pj)])] =>
      match decodePoint2 pj with
      | some p => some (.Coordinates p)
      | none => none
  | .obj [("Line", .obj [("line", lj)])] =>
      match decodeI32 lj with
      | some l => some (.Line l)
      | none => none
  | _ => none

/-- serde decoding of `ScrollLocation`. -/
def decodeScrollLocation : Json → Option ScrollLocation
  | .obj [("Line", .obj [("line", lj)])] =>
      match decodeI32 lj with
      | some l => some (.Line l)
      | none => none
  | .obj [("Rectangle", .obj [("top_left", tlj), ("bottom_right", brj)])] =>
      match decodePoint2 tlj, decodePoint2 brj with
      | some tl, some br => some (.Rectangle tl br)
      | _, _ => none
  | _ => none

/-- serde decoding of `Shape`. -/
def decodeShape : Json → Option Shape
  | .obj [("Rectangle", .obj [("top_left", tlj), ("bottom_right", brj)])] =>
      match decodePoint2 tlj, decodePoint2 brj with
      | some tl, some br => some (.Rectangle tl br)
      | _, _ => none
  | .obj [("Circle", .obj [("center", cj), ("radius", rj)])] =>
      match decodePoint2 cj, decodeU16 rj with
      | some c, some r => some (.Circle c r)
      | _, _ => none
  | .obj [("Pixel", .obj [("pos", pj)])] =>
      match decodePoint2 pj with
      | some p => some (.Pixel p)
      | none => none
  | .obj [("Line", .obj [("start", sj), ("end", ej)])] =>
      match decodePoint2 sj, decodePoint2 ej with
      | some s, some e => some (.Line s e)
      | _, _ => none
  | _ => none

/-- serde decoding of `DrawCommand`. -/
def decodeDrawCommand : Json → Option DrawCommand
  | .obj [("Fill", .obj [("shape", sj)])] =>
      match decodeShape sj with
      | some s => some (.Fill s)
      | none => none
  | .obj [("Stroke", .obj [("shape", sj)])] =>
      match decodeShape sj with
      | some s => some (.Stroke s)
      | none => none
  | .obj [("CopyBuffer", .obj [("top_left", tlj), ("bottom_right", brj),
        ("stride", stj), ("buffer", bj)])] =>
      match decodePoint2 tlj, decodePoint2 brj, decodeNonZeroU16 stj,
          decodeString bj with
      | some tl, some br, some st, some b => some (.CopyBuffer tl br st b)
      | _, _, _, _ => none
  | .obj [("Write", .obj [("text", tj), ("location", lj), ("opaque", oj),
        ("background", bj)])] =>
      match decodeV5Text tj, decodeTextLocation lj, decodeBool oj,
          decodeColor bj with
      | some t, some l, some o, some b => some (.Write t l o b)
      | _, _, _, _ => none
  | _ => none

/-- Read one expected struct field from a serde map in canonical order: the
next entry must carry the expected key and a value accepted by `dec`; the
continuation `k` receives the decoded value and the remaining entries.  This
models the derived impl's sequential `visit_map` loop on the canonical
encoded shape. -/
def fieldStep (name : String) (dec : Json → Option α)
    (fields : List (String × Json))
    (k : α → List (String × Json) → Option β) : Option β :=
  match fields with
  | (key, v) :: rest =>
      if key = name then
        match dec v with
        | some a => k a rest
        | none => none
      else none
  | [] => none

/-- serde decoding of `DeviceStatus` (field-by-field, canonical order). -/
def decodeDeviceStatus : Json → Option DeviceStatus
  | .obj [("Motor", .obj fields)] =>
      fieldStep "velocity" decodeF64 fields fun velocity fields =>
      fieldStep "reversed" decodeBool fields fun reversed fields =>
      fieldStep "power_draw" decodeF64 fields fun power_draw fields =>
      fieldStep "torque_output" decodeF64 fields fun torque_output fields =>
      fieldStep "flags" decodeI32 fields fun flags fields =>
      fieldStep "position" decodeF64 fields fun position fields =>
      fieldStep "target_position" decodeF64 fields fun target_position fields =>
      fieldStep "voltage" decodeF64 fields fun voltage fields =>
      fieldStep "gearset" decodeMotorGearset fields fun gearset fields =>
      fieldStep "brake_mode" decodeMotorBrakeMode fields fun brake_mode fields =>
      match fields with
      | [] => some (.Motor velocity reversed power_draw torque_output flags
                    position target_position voltage gearset brake_mode)
      | _ => none
  | _ => none

/-- serde decoding of `Device`. -/
def decodeDevice : Json → Option Device
  | .obj [("Motor", .obj [("physical_gearset", gj), ("moment_of_inertia", mj)])] =>
      match decodeMotorGearset gj, decodeF64 mj with
      | some g, some m => some (.Motor g m)
      | _, _ => none
  | _ => none

/-- serde decoding of `RobotState` (unit struct: `null`). -/
def decodeRobotState : Json → Option RobotState
  | .null => some ⟨⟩
  | _ => none

/-- serde decoding of `Battery`. -/
def decodeBattery : Json → Option Battery
  | .obj [("voltage", vj), ("current", cj), ("capacity", caj)] =>
      match decodeF64 vj, decodeF64 cj, decodeF64 caj with
      | some v, some c, some ca => some ⟨v, c, ca⟩
      | _, _, _ => none
  | _ => none

/-- serde decoding of `CompetitionMode`. -/
def decodeCompetitionMode : Json → Option CompetitionMode
  | .obj [("enabled", ej), ("connected", cj), ("mode", mj),
        ("is_competition", ij)] =>
      match decodeBool ej, decodeBool cj, decodeCompMode mj, decodeBool ij with
      | some e, some c, some m, some i => some ⟨e, c, m, i⟩
      | _, _, _, _ => none
  | _ => none

/-- serde decoding of `ControllerState` (field-by-field, canonical order). -/
def decodeControllerState : Json → Option ControllerState
  | .obj fields =>
      fieldStep "axis1" decodeI32 fields fun axis1 fields =>
      fieldStep "axis2" decodeI32 fields fun axis2 fields =>
      fieldStep "axis3" decodeI32 fields fun axis3 fields =>
      fieldStep "axis4" decodeI32 fields fun axis4 fields =>
      fieldStep "button_l1" decodeBool fields fun button_l1 fields =>
      fieldStep "button_l2" decodeBool fields fun button_l2 fields =>
      fieldStep "button_r1" decodeBool fields fun button_r1 fields =>
      fieldStep "button_r2" decodeBool fields fun button_r2 fields =>
      fieldStep "button_up" decodeBool fields fun button_up fields =>
      fieldStep "button_down" decodeBool fields fun button_down fields =>
      fieldStep "button_left" decodeBool fields fun button_left fields =>
      fieldStep "button_right" decodeBool fields fun button_right fields =>
      fieldStep "button_x" decodeBool fields fun button_x fields =>
      fieldStep "button_b" decodeBool fields fun button_b fields =>
      fieldStep "button_y" decodeBool fields fun button_y fields =>
      fieldStep "button_a" decodeBool fields fun button_a fields =>
      fieldStep "button_sel" decodeBool fields fun button_sel fields =>
      fieldStep "battery_level" decodeI32 fields fun battery_level fields =>
      fieldStep "button_all" decodeBool fields fun button_all fields =>
      fieldStep "flags" decodeI32 fields fun flags fields =>
      fieldStep "battery_capacity" decodeI32 fields fun battery_capacity fields =>
      match fields with
      | [] => some ⟨axis1, axis2, axis3, axis4, button_l1, button_l2,
                    button_r1, button_r2, button_up, button_down, button_left,
                    button_right, button_x, button_b, button_y, button_a,
                    button_sel, battery_level, button_all, flags,
                    battery_capacity⟩
      | _ => none
  | _ => none

/-- serde decoding of `ControllerUpdate`. -/
def decodeControllerUpdate : Json → Option ControllerUpdate
  | .obj [("Raw", sj)] =>
      match decodeControllerState sj with
      | some s => some (.Raw s)
      | none => none
  | .obj [("UUID", uj)] =>
      match decodeString uj with
      | some u => some (.UUID u)
      | none => none
  | _ => none

/-- serde decoding of `SerialData`. -/
def decodeSerialData : Json → Option SerialData
  | .obj [("channel", cj), ("data", dj)] =>
      match decodeU32 cj, decodeString dj with
      | some c, some d => some ⟨c, d⟩
      | _, _ => none
  | _ => none

/-- serde decoding of `VCodeSig`. -/
def decodeVCodeSig (j : Json) : Option VCodeSig :=
  match decodeString j with
  | some s => some ⟨s⟩
  | none => none

/-- serde decoding of `Event`: dispatch on the variant tag (a bare string
for unit variants, the single key of the outer object otherwise), then
decode that variant's payload, mirroring the derived visitor. -/
def decodeEvent : Json → Option Event
  | .str tag =>
      if tag = "ScreenRender" then some .ScreenRender
      else if tag = "Ready" then some .Ready
      else if tag = "Exited" then some .Exited
      else none
  | .obj [(tag, payload)] =>
      if tag = "Handshake" then
        match payload with
        | .obj [("version", vj), ("extensions", ej)] =>
            match decodeI32 vj, decodeStringList ej with
            | some v, some e => some (.Handshake v e)
            | _, _ => none
        | _ => none
      else if tag = "ScreenDraw" then
        match payload with
        | .obj [("command", cj), ("color", coj), ("clip_region", rj)] =>
            match decodeDrawCommand cj, decodeColor coj, decodeRect rj with
            | some c, some co, some r => some (.ScreenDraw c co r)
            | _, _, _ => none
        | _ => none
      else if tag = "ScreenScroll" then
        match payload with
        | .obj [("location", lj), ("lines", nj), ("background", bj),
              ("clip_region", rj)] =>
            match decodeScrollLocation lj, decodeI32 nj, decodeColor bj,
                decodeRect rj with
            | some l, some n, some b, some r => some (.ScreenScroll l n b r)
            | _, _, _, _ => none
        | _ => none
      else if tag = "ScreenClear" then
        match payload with
        | .obj [("color", cj), ("clip_region", rj)] =>
            match decodeColor cj, decodeRect rj with
            | some c, some r => some (.ScreenClear c r)
            | _, _ => none
        | _ => none
      else if tag = "ScreenDoubleBufferMode" then
        match payload with
        | .obj [("enable", ej)] =>
            match decodeBool ej with
            | some e => some (.ScreenDoubleBufferMode e)
            | none => none
        | _ => none
      else if tag = "VCodeSig" then
        match decodeVCodeSig payload with
        | some s => some (.VCodeSig s)
        | none => none
      else if tag = "Serial" then
        match decodeSerialData payload with
        | some s => some (.Serial s)
        | none => none
      else if tag = "DeviceUpdate" then
        match payload with
        | .obj [("status", sj), ("port", pj)] =>
            match decodeDeviceStatus sj, decodePort pj with
            | some s, some p => some (.DeviceUpdate s p)
            | _, _ => none
        | _ => none
      else if tag = "Battery" then
        match decodeBattery payload with
        | some b => some (.Battery b)
        | none => none
      else if tag = "RobotPose" then
        match payload with
        | .obj [("x", xj), ("y", yj)] =>
            match decodeF64 xj, decodeF64 yj with
            | some x, some y => some (.RobotPose x y)
            | _, _ => none
        | _ => none
      else if tag = "RobotState" then
        match decodeRobotState payload with
        | some s => some (.RobotState s)
        | none => none
      else if tag = "Log" then
        match payload with
        | .obj [("level", lj), ("message", mj)] =>
            match decodeLogLevel lj, decodeString mj with
            | some l, some m => some (.Log l m)
            | _, _ => none
        | _ => none
      else if tag = "VEXLinkConnect" then
        match payload with
        | .obj [("port", pj), ("id", ij), ("mode", mj), ("override", oj)] =>
            match decodeSmartPort pj, decodeString ij, decodeLinkMode mj,
                decodeBool oj with
            | some p, some i, some m, some o => some (.VEXLinkConnect p i m o)
            | _, _, _, _ => none
        | _ => none
      else if tag = "VEXLinkDisconnect" then
        match payload with
        | .obj [("port", pj)] =>
            match decodeSmartPort pj with
            | some p => some (.VEXLinkDisconnect p)
            | none => none
        | _ => none
      else if tag = "TextMetricsRequest" then
        match payload with
        | .obj [("text", tj)] =>
            match decodeV5Text tj with
            | some t => some (.TextMetricsRequest t)
            | none => none
        | _ => none
      else none
  | _ => none

/-- serde decoding of `Command`: dispatch on the variant tag, then decode
that variant's payload, mirroring the derived visitor. -/
def decodeCommand : Json → Option Command
  | .str tag => if tag = "StartExecution" then some .StartExecution else none
  | .obj [(tag, payload)] =>
      if tag = "Handshake" then
        match payload with
        | .obj [("version", vj), ("extensions", ej)] =>
            match decodeI32 vj, decodeStringList ej with
            | some v, some e => some (.Handshake v e)
            | _, _ => none
        | _ => none
      else if tag = "Touch" then
        match payload with
        | .obj [("pos", pj), ("event", ej)] =>
            match decodePoint2 pj, decodeTouchEvent ej with
            | some p, some e => some (.Touch p e)
            | _, _ => none
        | _ => none
      else if tag = "ControllerUpdate" then
        match payload with
        | .arr [aj, bj] =>
            match decodeOption decodeControllerUpdate aj,
                decodeOption decodeControllerUpdate bj with
            | some a, some b => some (.ControllerUpdate a b)
            | _, _ => none
        | _ => none
      else if tag = "USD" then
        match payload with
        | .obj [("root", rj)] =>
            match decodeOption decodeString rj with
            | some r => some (.USD r)
            | none => none
        | _ => none
      else if tag = "VEXLinkOpened" then
        match payload with
        | .obj [("port", pj), ("mode", mj)] =>
            match decodeSmartPort pj, decodeLinkMode mj with
            | some p, some m => some (.VEXLinkOpened p m)
            | _, _ => none
        | _ => none
      else if tag = "VEXLinkClosed" then
        match payload with
        | .obj [("port", pj)] =>
            match decodeSmartPort pj with
            | some p => some (.VEXLinkClosed p)
            | none => none
        | _ => none
      else if tag = "CompetitionMode" then
        match decodeCompetitionMode payload with
        | some m => some (.CompetitionMode m)
        | none => none
      else if tag = "ConfigureDevice" then
        match payload with
        | .obj [("port", pj), ("device", dj)] =>
            match decodePort pj, decodeDevice dj with
            | some p, some d => some (.ConfigureDevice p d)
            | _, _ => none
        | _ => none
      else if tag = "AdiInput" then
        match payload with
        | .obj [("port", pj), ("voltage", vj)] =>
            match decodeAdiPort pj, decodeF64 vj with
            | some p, some v => some (.AdiInput p v)
            | _, _ => none
        | _ => none
      else if tag = "SetBatteryCapacity" then
        match payload with
        | .obj [("capacity", cj)] =>
            match decodeF64 cj with
            | some c => some (.SetBatteryCapacity c)
            | none => none
        | _ => none
      else if tag = "SetTextMetrics" then
        match payload with
        | .obj [("text", tj), ("metrics", mj)] =>
            match decodeV5Text tj, decodeTextMetrics mj with
            | some t, some m => some (.SetTextMetrics t m)
            | _, _ => none
        | _ => none
      else if tag = "Serial" then
        match decodeSerialData payload with
        | some s => some (.Serial s)
        | none => none
      else none
  | _ => none

/-! ## Finiteness of float fields

`decode(encode(v)) = v` can only hold when every `f64` field of `v` is
finite (a non-finite double encodes as `null`, which fails to decode). -/

/-- All `f64` fields of a `DeviceStatus` are finite. -/
def DeviceStatus.floatsFinite : DeviceStatus → Bool
  | .Motor velocity _ power_draw torque_output _ position target_position
      voltage _ _ =>
      velocity.isFinite && power_draw.isFinite && torque_output.isFinite &&
      position.isFinite && target_position.isFinite && voltage.isFinite

/-- All `f64` fields of a `Battery` are finite. -/
def Battery.floatsFinite (b : Battery) : Bool :=
  b.voltage.isFinite && b.current.isFinite && b.capacity.isFinite

/-- All `f64` fields of a `Device` are finite. -/
def Device.floatsFinite : Device → Bool
  | .Motor _ moment_of_inertia => moment_of_inertia.isFinite

/-- All `f64` fields of an `Event` are finite. -/
def Event.floatsFinite : Event → Bool
  | .DeviceUpdate status _ => status.floatsFinite
  | .Battery battery => battery.floatsFinite
  | .RobotPose x y => x.isFinite && y.isFinite
  | _ => true

/-- All `f64` fields of a `Command` are finite. -/
def Command.floatsFinite : Command → Bool
  | .ConfigureDevice _ device => device.floatsFinite
  | .AdiInput _ voltage => voltage.isFinite
  | .SetBatteryCapacity capacity => capacity.isFinite
  | _ => true

/-! ## Component round-trip lemmas -/

theorem decodeBool_encode (b : Bool) : decodeBool (.bool b) = some b := rfl

theorem decodeString_encode (s : String) : decodeString (.str s) = some s := rfl

theorem decodeI32_encode (n : I32) : decodeI32 (encodeI32 n) = some n := by
  obtain ⟨v, hv⟩ := n
  simp only [encodeI32, decodeI32]
  rw [dif_pos ⟨Rat.den_intCast v, by rw [Rat.num_intCast]; exact hv⟩]
  exact congrArg some (Subtype.ext (Rat.num_intCast v))

theorem decodeU8_encode (n : U8) : decodeU8 (encodeU8 n) = some n := by
  obtain ⟨v, hv⟩ := n
  simp only [encodeU8, decodeU8]
  rw [dif_pos ⟨Rat.den_natCast v, by rw [Rat.num_natCast]; omega⟩]
  exact congrArg some (Subtype.ext (by simp))

theorem decodeU16_encode (n : U16) : decodeU16 (encodeU16 n) = some n := by
  obtain ⟨v, hv⟩ := n
  simp only [encodeU16, decodeU16]
  rw [dif_pos ⟨Rat.den_natCast v, by rw [Rat.num_natCast]; omega⟩]
  exact congrArg some (Subtype.ext (by simp))

theorem decodeU32_encode (n : U32) : decodeU32 (encodeU32 n) = some n := by
  obtain ⟨v, hv⟩ := n
  simp only [encodeU32, decodeU32]
  rw [dif_pos ⟨Rat.den_natCast v, by rw [Rat.num_natCast]; omega⟩]
  exact congrArg some (Subtype.ext (by simp))

theorem decodeUsize_encode (n : Usize) : decodeUsize (encodeUsize n) = some n := by
  obtain ⟨v, hv⟩ := n
  simp only [encodeUsize, decodeUsize]
  rw [dif_pos ⟨Rat.den_natCast v, by rw [Rat.num_natCast]; omega⟩]
  exact congrArg some (Subtype.ext (by simp))

theorem decodeNonZeroU16_encode (n : NonZeroU16) :
    decodeNonZeroU16 (encodeNonZeroU16 n) = some n := by
  obtain ⟨v, hv⟩ := n
  simp only [encodeNonZeroU16, decodeNonZeroU16]
  rw [dif_pos ⟨Rat.den_natCast v, by rw [Rat.num_natCast]; omega⟩]
  exact congrArg some (Subtype.ext (by simp))

theorem decodeF64_encode (f : F64) (h : f.isFinite = true) :
    decodeF64 (encodeF64 f) = some f := by
  cases f with
  | finite q => rfl
  | notFinite => simp [F64.isFinite] at h

/-- Reading an expected field off the front of a canonical field list
steps to the continuation. -/
theorem fieldStep_cons (name : String) (dec : Json → Option α) (j : Json)
    (a : α) (rest : List (String × Json))
    (k : α → List (String × Json) → Option β) (h : dec j = some a) :
    fieldStep name dec ((name, j) :: rest) k = k a rest := by
  rw [fieldStep, if_pos rfl, h]

theorem decodeStrings_map (l : List String) :
    decodeStrings (l.map Json.str) = some l := by
  induction l with
  | nil => rfl
  | cons s rest ih => simp [decodeStrings, decodeString, ih]

theorem decodeStringList_encode (l : List String) :
    decodeStringList (encodeStringList l) = some l := by
  simp [encodeStringList, decodeStringList, decodeStrings_map]

theorem decodePoint2_encode (p : Point2) :
    decodePoint2 (encodePoint2 p) = some p := by
  simp [encodePoint2, decodePoint2, decodeI32_encode]

theorem decodeRect_encode (r : Rect) : decodeRect (encodeRect r) = some r := by
  simp [encodeRect, decodeRect, decodePoint2_encode]

theorem decodeColor_encode (c : Color) :
    decodeColor (encodeColor c) = some c := by
  rw [decodeColor, encodeColor, decodeU32_encode]
  rfl

theorem decodeMotorGearset_encode (g : MotorGearset) :
    decodeMotorGearset (encodeMotorGearset g) = some g := by
  cases g <;> rfl

theorem decodeMotorBrakeMode_encode (m : MotorBrakeMode) :
    decodeMotorBrakeMode (encodeMotorBrakeMode m) = some m := by
  cases m <;> rfl

theorem decodeLinkMode_encode (m : LinkMode) :
    decodeLinkMode (encodeLinkMode m) = some m := by
  cases m <;> rfl

theorem decodeTouchEvent_encode (t : TouchEvent) :
    decodeTouchEvent (encodeTouchEvent t) = some t := by
  cases t <;> rfl

theorem decodeCompMode_encode (m : CompMode) :
    decodeCompMode (encodeCompMode m) = some m := by
  cases m <;> rfl

theorem decodeLogLevel_encode (l : LogLevel) :
    decodeLogLevel (encodeLogLevel l) = some l := by
  cases l <;> rfl

theorem decodeSmartPort_encode (p : SmartPort) :
    decodeSmartPort (encodeSmartPort p) = some p := by
  simp [encodeSmartPort, decodeSmartPort, decodeU8_encode]

theorem decodeAdiPort_encode (p : AdiPort) :
    decodeAdiPort (encodeAdiPort p) = some p := by
  simp [encodeAdiPort, decodeAdiPort, decodeU8_encode]

theorem decodePort_encode (p : Port) : decodePort (encodePort p) = some p := by
  cases p <;>
    simp [encodePort, decodePort, decodeSmartPort_encode, decodeAdiPort_encode]

theorem decodeV5FontFamily_encode (f : V5FontFamily) :
    decodeV5FontFamily (encodeV5FontFamily f) = some f := by
  cases f <;> rfl

theorem decodeV5FontSize_encode (s : V5FontSize) :
    decodeV5FontSize (encodeV5FontSize s) = some s := by
  cases s <;> rfl

theorem decodeV5Text_encode (t : V5Text) :
    decodeV5Text (encodeV5Text t) = some t := by
  simp [encodeV5Text, decodeV5Text, decodeString,
    decodeV5FontFamily_encode, decodeV5FontSize_encode]

theorem decodeTextMetrics_encode (m : TextMetrics) :
    decodeTextMetrics (encodeTextMetrics m) = some m := by
  simp [encodeTextMetrics, decodeTextMetrics, decodeUsize_encode]

theorem decodeTextLocation_encode (l : TextLocation) :
    decodeTextLocation (encodeTextLocation l) = some l := by
  cases l <;>
    simp [encodeTextLocation, decodeTextLocation, decodePoint2_encode,
      decodeI32_encode]

theorem decodeScrollLocation_encode (l : ScrollLocation) :
    decodeScrollLocation (encodeScrollLocation l) = some l := by
  cases l <;>
    simp [encodeScrollLocation, decodeScrollLocation, decodePoint2_encode,
      decodeI32_encode]

theorem decodeShape_encode (s : Shape) : decodeShape (encodeShape s) = some s := by
  cases s <;>
    simp [encodeShape, decodeShape, decodePoint2_encode, decodeU16_encode]

theorem decodeDrawCommand_encode (d : DrawCommand) :
    decodeDrawCommand (encodeDrawCommand d) = some d := by
  cases d <;>
    simp [encodeDrawCommand, decodeDrawCommand, decodeShape_encode,
      decodePoint2_encode, decodeNonZeroU16_encode, decodeString,
      decodeV5Text_encode, decodeTextLocation_encode, decodeBool,
      decodeColor_encode]

theorem decodeDeviceStatus_encode (s : DeviceStatus)
    (h : s.floatsFinite = true) :
    decodeDeviceStatus (encodeDeviceStatus s) = some s := by
  cases s with
  | Motor v r pd t f p tp vo g b =>
      simp only [DeviceStatus.floatsFinite, Bool.and_eq_true] at h
      obtain ⟨⟨⟨⟨⟨h1, h2⟩, h3⟩, h4⟩, h5⟩, h6⟩ := h
      rw [encodeDeviceStatus, decodeDeviceStatus,
        fieldStep_cons _ _ _ _ _ _ (decodeF64_encode _ h1),
        fieldStep_cons _ _ _ _ _ _ (decodeBool_encode r),
        fieldStep_cons _ _ _ _ _ _ (decodeF64_encode _ h2),
        fieldStep_cons _ _ _ _ _ _ (decodeF64_encode _ h3),
        fieldStep_cons _ _ _ _ _ _ (decodeI32_encode f),
        fieldStep_cons _ _ _ _ _ _ (decodeF64_encode _ h4),
        fieldStep_cons _ _ _ _ _ _ (decodeF64_encode _ h5),
        fieldStep_cons _ _ _ _ _ _ (decodeF64_encode _ h6),
        fieldStep_cons _ _ _ _ _ _ (decodeMotorGearset_encode g),
        fieldStep_cons _ _ _ _ _ _ (decodeMotorBrakeMode_encode b)]

theorem decodeDevice_encode (d : Device) (h : d.floatsFinite = true) :
    decodeDevice (encodeDevice d) = some d := by
  cases d with
  | Motor g m =>
      simp only [Device.floatsFinite] at h
      simp [encodeDevice, decodeDevice, decodeMotorGearset_encode,
        decodeF64_encode _ h]

theorem decodeRobotState_encode (s : RobotState) :
    decodeRobotState (encodeRobotState s) = some s := rfl

theorem decodeBattery_encode (b : Battery) (h : b.floatsFinite = true) :
    decodeBattery (encodeBattery b) = some b := by
  obtain ⟨v, c, ca⟩ := b
  simp only [Battery.floatsFinite, Bool.and_eq_true] at h
  obtain ⟨⟨h1, h2⟩, h3⟩ := h
  simp [encodeBattery, decodeBattery, decodeF64_encode _ h1,
    decodeF64_encode _ h2, decodeF64_encode _ h3]

theorem decodeCompetitionMode_encode (m : CompetitionMode) :
    decodeCompetitionMode (encodeCompetitionMode m) = some m := by
  simp [encodeCompetitionMode, decodeCompetitionMode, decodeBool,
    decodeCompMode_encode]

theorem decodeControllerState_encode (s : ControllerState) :
    decodeControllerState (encodeControllerState s) = some s := by
  rw [encodeControllerState, decodeControllerState,
    fieldStep_cons _ _ _ _ _ _ (decodeI32_encode s.axis1),
    fieldStep_cons _ _ _ _ _ _ (decodeI32_encode s.axis2),
    fieldStep_cons _ _ _ _ _ _ (decodeI32_encode s.axis3),
    fieldStep_cons _ _ _ _ _ _ (decodeI32_encode s.axis4),
    fieldStep_cons _ _ _ _ _ _ (decodeBool_encode s.button_l1),
    fieldStep_cons _ _ _ _ _ _ (decodeBool_encode s.button_l2),
    fieldStep_cons _ _ _ _ _ _ (decodeBool_encode s.button_r1),
    fieldStep_cons _ _ _ _ _ _ (decodeBool_encode s.button_r2),
    fieldStep_cons _ _ _ _ _ _ (decodeBool_encode s.button_up),
    fieldStep_cons _ _ _ _ _ _ (decodeBool_encode s.button_down),
    fieldStep_cons _ _ _ _ _ _ (decodeBool_encode s.button_left),
    fieldStep_cons _ _ _ _ _ _ (decodeBool_encode s.button_right),
    fieldStep_cons _ _ _ _ _ _ (decodeBool_encode s.button_x),
    fieldStep_cons _ _ _ _ _ _ (decodeBool_encode s.button_b),
    fieldStep_cons _ _ _ _ _ _ (decodeBool_encode s.button_y),
    fieldStep_cons _ _ _ _ _ _ (decodeBool_encode s.button_a),
    fieldStep_cons _ _ _ _ _ _ (decodeBool_encode s.button_sel),
    fieldStep_cons _ _ _ _ _ _ (decodeI32_encode s.battery_level),
    fieldStep_cons _ _ _ _ _ _ (decodeBool_encode s.button_all),
    fieldStep_cons _ _ _ _ _ _ (decodeI32_encode s.flags),
    fieldStep_cons _ _ _ _ _ _ (decodeI32_encode s.battery_capacity)]

theorem decodeControllerUpdate_encode (u : ControllerUpdate) :
    decodeControllerUpdate (encodeControllerUpdate u) = some u := by
  cases u <;>
    simp [encodeControllerUpdate, decodeControllerUpdate,
      decodeControllerState_encode, decodeString]

theorem decodeOption_cu_encode (o : Option ControllerUpdate) :
    decodeOption decodeControllerUpdate
      (encodeOption encodeControllerUpdate o) = some o := by
  match o with
  | none => rfl
  | some u =>
      cases u <;>
        simp [encodeOption, decodeOption, encodeControllerUpdate,
          decodeControllerUpdate, decodeControllerState_encode, decodeString]

theorem decodeOption_str_encode (o : Option String) :
    decodeOption decodeString (encodeOption Json.str o) = some o := by
  match o with
  | none => rfl
  | some s => simp [encodeOption, decodeOption, decodeString]

theorem decodeSerialData_encode (s : SerialData) :
    decodeSerialData (encodeSerialData s) = some s := by
  rw [encodeSerialData, decodeSerialData, decodeU32_encode, decodeString]

theorem decodeVCodeSig_encode (v : VCodeSig) :
    decodeVCodeSig (encodeVCodeSig v) = some v := by
  simp [encodeVCodeSig, decodeVCodeSig, decodeString]

set_option maxHeartbeats 1000000 in
/-- Round trip for `Event` on canonical encodings, given finite floats. -/
theorem decodeEvent_encode (e : Event) (h : e.floatsFinite = true) :
    decodeEvent (encodeEvent e) = some e := by
  cases e with
  | Handshake version extensions =>
      simp [encodeEvent, decodeEvent, decodeI32_encode, decodeStringList_encode]
  | ScreenDraw command color clip_region =>
      simp [encodeEvent, decodeEvent, decodeDrawCommand_encode,
        decodeColor_encode, decodeRect_encode]
  | ScreenScroll location lines background clip_region =>
      simp [encodeEvent, decodeEvent, decodeScrollLocation_encode,
        decodeI32_encode, decodeColor_encode, decodeRect_encode]
  | ScreenClear color clip_region =>
      simp [encodeEvent, decodeEvent, decodeColor_encode, decodeRect_encode]
  | ScreenDoubleBufferMode enable =>
      simp [encodeEvent, decodeEvent, decodeBool]
  | ScreenRender => rfl
  | VCodeSig sig =>
      simp [encodeEvent, decodeEvent, decodeVCodeSig_encode]
  | Ready => rfl
  | Exited => rfl
  | Serial data =>
      simp [encodeEvent, decodeEvent, decodeSerialData_encode]
  | DeviceUpdate status port =>
      simp only [Event.floatsFinite] at h
      simp [encodeEvent, decodeEvent, decodeDeviceStatus_encode _ h,
        decodePort_encode]
  | Battery battery =>
      simp only [Event.floatsFinite] at h
      simp [encodeEvent, decodeEvent, decodeBattery_encode _ h]
  | RobotPose x y =>
      simp only [Event.floatsFinite, Bool.and_eq_true] at h
      simp [encodeEvent, decodeEvent, decodeF64_encode _ h.1,
        decodeF64_encode _ h.2]
  | RobotState state =>
      simp [encodeEvent, decodeEvent, decodeRobotState_encode]
  | Log level message =>
      simp [encodeEvent, decodeEvent, decodeLogLevel_encode, decodeString]
  | VEXLinkConnect port id mode override =>
      simp [encodeEvent, decodeEvent, decodeSmartPort_encode, decodeString,
        decodeLinkMode_encode, decodeBool]
  | VEXLinkDisconnect port =>
      simp [encodeEvent, decodeEvent, decodeSmartPort_encode]
  | TextMetricsRequest text =>
      simp [encodeEvent, decodeEvent, decodeV5Text_encode]

set_option maxHeartbeats 1000000 in
/-- Round trip for `Command` on canonical encodings, given finite floats. -/
theorem decodeCommand_encode (c : Command) (h : c.floatsFinite = true) :
    decodeCommand (encodeCommand c) = some c := by
  cases c with
  | Handshake version extensions =>
      simp [encodeCommand, decodeCommand, decodeI32_encode,
        decodeStringList_encode]
  | Touch pos event =>
      simp [encodeCommand, decodeCommand, decodePoint2_encode,
        decodeTouchEvent_encode]
  | ControllerUpdate primary partner =>
      simp [encodeCommand, decodeCommand, decodeOption_cu_encode]
  | USD root =>
      simp [encodeCommand, decodeCommand, decodeOption_str_encode]
  | VEXLinkOpened port mode =>
      simp [encodeCommand, decodeCommand, decodeSmartPort_encode,
        decodeLinkMode_encode]
  | VEXLinkClosed port =>
      simp [encodeCommand, decodeCommand, decodeSmartPort_encode]
  | CompetitionMode mode =>
      simp [encodeCommand, decodeCommand, decodeCompetitionMode_encode]
  | ConfigureDevice port device =>
      simp only [Command.floatsFinite] at h
      simp [encodeCommand, decodeCommand, decodePort_encode,
        decodeDevice_encode _ h]
  | AdiInput port voltage =>
      simp only [Command.floatsFinite] at h
      simp [encodeCommand, decodeCommand, decodeAdiPort_encode,
        decodeF64_encode _ h]
  | StartExecution => rfl
  | SetBatteryCapacity capacity =>
      simp only [Command.floatsFinite] at h
      simp [encodeCommand, decodeCommand, decodeF64_encode _ h]
  | SetTextMetrics text metrics =>
      simp [encodeCommand, decodeCommand, decodeV5Text_encode,
        decodeTextMetrics_encode]
  | Serial data =>
      simp [encodeCommand, decodeCommand, decodeSerialData_encode]

/-! ## Variant-shape helpers (wire-format claims) -/

/-- The Rust variant name of an `Event`. -/
def Event.variantName : Event → String
  | .Handshake .. => "Handshake"
  | .ScreenDraw .. => "ScreenDraw"
  | .ScreenScroll .. => "ScreenScroll"
  | .ScreenClear .. => "ScreenClear"
  | .ScreenDoubleBufferMode .. => "ScreenDoubleBufferMode"
  | .ScreenRender => "ScreenRender"
  | .VCodeSig .. => "VCodeSig"
  | .Ready => "Ready"
  | .Exited => "Exited"
  | .Serial .. => "Serial"
  | .DeviceUpdate .. => "DeviceUpdate"
  | .Battery .. => "Battery"
  | .RobotPose .. => "RobotPose"
  | .RobotState .. => "RobotState"
  | .Log .. => "Log"
  | .VEXLinkConnect .. => "VEXLinkConnect"
  | .VEXLinkDisconnect .. => "VEXLinkDisconnect"
  | .TextMetricsRequest .. => "TextMetricsRequest"

/-- Whether an `Event` variant carries no payload (serde encodes such a
variant as the bare variant-name string). -/
def Event.isUnitVariant : Event → Bool
  | .ScreenRender | .Ready | .Exited => true
  | _ => false

/-- The Rust variant name of a `Command`. -/
def Command.variantName : Command → String
  | .Handshake .. => "Handshake"
  | .Touch .. => "Touch"
  | .ControllerUpdate .. => "ControllerUpdate"
  | .USD .. => "USD"
  | .VEXLinkOpened .. => "VEXLinkOpened"
  | .VEXLinkClosed .. => "VEXLinkClosed"
  | .CompetitionMode .. => "CompetitionMode"
  | .ConfigureDevice .. => "ConfigureDevice"
  | .AdiInput .. => "AdiInput"
  | .StartExecution => "StartExecution"
  | .SetBatteryCapacity .. => "SetBatteryCapacity"
  | .SetTextMetrics .. => "SetTextMetrics"
  | .Serial .. => "Serial"

/-- Whether a `Command` variant carries no payload. -/
def Command.isUnitVariant : Command → Bool
  | .StartExecution => true
  | _ => false

/-- serde decoding of `DeviceStatus` keeping serde_json's error message: the
derived impl raises serde's unknown-variant error for an unrecognized tag;
serde_json renders every data error as a message string inside the one
`serde_json::Error` type, so an unknown variant is a decode failure like any
other, distinguishable only by its message text. -/
def decodeDeviceStatusE : Json → Except String DeviceStatus
  | .obj [(tag, payload)] =>
      if tag = "Motor" then
        match decodeDeviceStatus (.obj [(tag, payload)]) with
        | some s => .ok s
        | none => .error "invalid Motor payload"
      else .error ("unknown variant " ++ tag ++ ", expected Motor")
  | .str tag =>
      if tag = "Motor" then .error "invalid type: unit variant Motor"
      else .error ("unknown variant " ++ tag ++ ", expected Motor")
  | _ => .error "invalid type"

/-! ## Claim theorems -/

/-- C2: for every byte sequence (empty and non-UTF8 included) and every
channel, the base64 payload round-trips exactly:
`SerialData::new(channel, b).to_bytes() == Ok(b)` and
`VCodeSig::new(b).to_bytes() == Ok(b)`. -/
theorem c2_base64_roundtrip (channel : U32) (bytes : List ℕ)
    (h : ∀ x ∈ bytes, x < 256) :
    (SerialData.new channel bytes).to_bytes = some bytes ∧
    (VCodeSig.new bytes).to_bytes = some bytes :=
  ⟨b64Decode_encode bytes h, b64Decode_encode bytes h⟩

/-- C2 witness: a concrete channel and byte sequence (with a 0x00, a 0xFF
and an odd tail length, hence padding). -/
theorem c2_base64_roundtrip_witness :
    (SerialData.new ⟨0, by norm_num⟩ [0, 255, 7, 128]).to_bytes =
      some [0, 255, 7, 128] ∧
    (VCodeSig.new [0, 255, 7, 128]).to_bytes = some [0, 255, 7, 128] :=
  c2_base64_roundtrip ⟨0, by norm_num⟩ [0, 255, 7, 128] (by decide)

/-- C7: `Color` packs `0x00RRGGBB`; the conversions with `RGB8` round-trip:
`RGB8::from(Color::from(c)) == c` for every `RGB8`, and
`Color::from(RGB8::from(col)) == col` for every `Color` whose top (reserved)
byte is zero. -/
theorem c7_color_rgb8_roundtrip :
    (∀ c : RGB8, RGB8.fromColor (Color.fromRGB8 c) = c) ∧
    (∀ col : Color, col.val.val < 2 ^ 24 →
      Color.fromRGB8 (RGB8.fromColor col) = col) := by
  constructor
  · rintro ⟨⟨r, hr⟩, ⟨g, hg⟩, ⟨b, hb⟩⟩
    simp only [Color.fromRGB8, RGB8.fromColor, RGB8.mk.injEq]
    refine ⟨Subtype.ext ?_, Subtype.ext ?_, Subtype.ext ?_⟩ <;> simp <;> omega
  · rintro ⟨⟨v, hv⟩⟩ h
    simp only [RGB8.fromColor, Color.fromRGB8, Color.mk.injEq]
    exact Subtype.ext (by simp at h ⊢; omega)

/-- C7 witness: the round trips at `RGB8 (18, 52, 86)` and at the pure-red
packed color `0xFF0000`. -/
theorem c7_color_rgb8_roundtrip_witness :
    RGB8.fromColor (Color.fromRGB8 ⟨⟨18, by norm_num⟩, ⟨52, by norm_num⟩,
      ⟨86, by norm_num⟩⟩) =
      ⟨⟨18, by norm_num⟩, ⟨52, by norm_num⟩, ⟨86, by norm_num⟩⟩ ∧
    Color.fromRGB8 (RGB8.fromColor ⟨⟨16711680, by norm_num⟩⟩) =
      ⟨⟨16711680, by norm_num⟩⟩ :=
  ⟨c7_color_rgb8_roundtrip.1 _,
   c7_color_rgb8_roundtrip.2 ⟨⟨16711680, by norm_num⟩⟩ (by norm_num)⟩

/-- C8: the `Default` impls give exactly
`CompetitionMode { enabled: true, connected: false, mode: Driver,
is_competition: false }`, with `Driver` the default `CompMode`. -/
theorem c8_competition_mode_default :
    CompetitionMode.default =
      { enabled := true, connected := false, mode := CompMode.Driver,
        is_competition := false } ∧
    CompMode.default = CompMode.Driver :=
  ⟨rfl, rfl⟩

/-- C9: `From<Color> for RGB8` depends only on the low 24 bits of the packed
value; two colors agreeing there convert identically, the reserved top byte
being discarded without validation. -/
theorem c9_color_low24 (c1 c2 : Color)
    (h : c1.val.val % 2 ^ 24 = c2.val.val % 2 ^ 24) :
    RGB8.fromColor c1 = RGB8.fromColor c2 := by
  obtain ⟨⟨v1, hv1⟩⟩ := c1
  obtain ⟨⟨v2, hv2⟩⟩ := c2
  simp only at h
  simp only [RGB8.fromColor, RGB8.mk.injEq]
  refine ⟨Subtype.ext ?_, Subtype.ext ?_, Subtype.ext ?_⟩ <;> simp <;> omega

/-- C9 witness: `0xAA123456` and `0x00123456` agree on their low 24 bits and
convert to the same `RGB8`. -/
theorem c9_color_low24_witness :
    (2853319766 : ℕ) % 2 ^ 24 = (1193046 : ℕ) % 2 ^ 24 ∧
    RGB8.fromColor ⟨⟨2853319766, by norm_num⟩⟩ =
      RGB8.fromColor ⟨⟨1193046, by norm_num⟩⟩ :=
  ⟨by norm_num,
   c9_color_low24 ⟨⟨2853319766, by norm_num⟩⟩ ⟨⟨1193046, by norm_num⟩⟩
     (by norm_num)⟩

/-- C10: both controller slots of `Command::ControllerUpdate` are independent
options; every combination of absent / raw-state / UUID slots is a
well-formed message that encodes and decodes back to itself. -/
theorem c10_controller_update_roundtrip
    (primary partner : Option ControllerUpdate) :
    decodeCommand (encodeCommand (Command.ControllerUpdate primary partner)) =
      some (Command.ControllerUpdate primary partner) :=
  decodeCommand_encode (Command.ControllerUpdate primary partner) rfl

/-- C1 counterexample: `Event::RobotPose { x: f64::NAN, y: 0.0 }` is a
well-typed value of the `Event` type, but serde_json serializes the
non-finite `x` as `null`, which then fails to deserialize as `f64`; so
`decode(encode(v)) == v` fails on it. -/
theorem c1_roundtrip_counterexample :
    decodeEvent (encodeEvent
        (Event.RobotPose F64.notFinite (F64.finite 0))) ≠
      some (Event.RobotPose F64.notFinite (F64.finite 0)) := by
  have hnone : decodeEvent (encodeEvent
      (Event.RobotPose F64.notFinite (F64.finite 0))) = none := by
    simp [encodeEvent, decodeEvent, encodeF64, decodeF64]
  simp [hnone]

/-- C1 (amended): for every `Event` and `Command` all of whose `f64` fields
are finite, decoding the JSON encoding yields the original value. -/
theorem c1_roundtrip_finite :
    (∀ e : Event, e.floatsFinite = true →
      decodeEvent (encodeEvent e) = some e) ∧
    (∀ c : Command, c.floatsFinite = true →
      decodeCommand (encodeCommand c) = some c) :=
  ⟨decodeEvent_encode, decodeCommand_encode⟩

/-- C1 witness: a robot pose with finite coordinates and a `USD` command
round-trip. -/
theorem c1_roundtrip_finite_witness :
    Event.floatsFinite (Event.RobotPose (F64.finite 1) (F64.finite 2)) =
      true ∧
    decodeEvent (encodeEvent
        (Event.RobotPose (F64.finite 1) (F64.finite 2))) =
      some (Event.RobotPose (F64.finite 1) (F64.finite 2)) ∧
    Command.floatsFinite (Command.USD (some "/mnt/usd")) = true ∧
    decodeCommand (encodeCommand (Command.USD (some "/mnt/usd"))) =
      some (Command.USD (some "/mnt/usd")) :=
  ⟨rfl, c1_roundtrip_finite.1 _ rfl, rfl, c1_roundtrip_finite.2 _ rfl⟩

/-- C3 counterexample: decoding a `Rect` whose `top_left.x` exceeds
`bottom_right.x` succeeds (the derived impl performs no geometric
validation), contradicting the claimed decode-time validation error. -/
theorem c3_rect_counterexample :
    decodeRect (Json.obj
        [("top_left", Json.obj [("x", Json.num 1), ("y", Json.num 0)]),
         ("bottom_right", Json.obj [("x", Json.num 0), ("y", Json.num 0)])]) =
      some ⟨⟨⟨1, by norm_num⟩, ⟨0, by norm_num⟩⟩,
            ⟨⟨0, by norm_num⟩, ⟨0, by norm_num⟩⟩⟩ := by
  have h1 : decodeI32 (Json.num 1) = some ⟨1, by norm_num⟩ := by
    simp [decodeI32]
  have h0 : decodeI32 (Json.num 0) = some ⟨0, by norm_num⟩ := by
    simp [decodeI32]
  simp [decodeRect, decodePoint2, h1, h0]

/-- C3 (amended): `Rect` decoding performs no corner-ordering validation at
all: every `Rect` value — inverted corners included — encodes and decodes
back to itself, and the same holds for `Shape::Rectangle`; equal corners in
particular decode successfully. -/
theorem c3_rect_no_validation :
    (∀ r : Rect, decodeRect (encodeRect r) = some r) ∧
    (∀ tl br : Point2, decodeShape (encodeShape (Shape.Rectangle tl br)) =
      some (Shape.Rectangle tl br)) :=
  ⟨decodeRect_encode, fun tl br => decodeShape_encode (Shape.Rectangle tl br)⟩

/-- C4 counterexample: a structurally well-formed `DeviceUpdate` whose
status tag `Gyro` is unrecognized fails to decode with the same `none`
(decode-failure) outcome as an entirely malformed message: the library
offers no distinct recoverable "unrecognized variant" value (the
`DeviceStatus` enum has no catch-all case a decoded value could use). -/
theorem c4_unknown_variant_counterexample :
    decodeEvent (Json.obj [("DeviceUpdate", Json.obj
        [("status", Json.obj [("Gyro", Json.obj [])]),
         ("port", Json.obj [("Smart", Json.num 1)])])]) = none ∧
    decodeEvent (Json.str "Bogus") = none := by
  constructor
  · simp [decodeEvent, decodeDeviceStatus]
  · simp [decodeEvent]

/-- C4 (amended): decoding a `DeviceStatus` payload with an unrecognized
variant tag fails with serde's unknown-variant decode error — an `Err` of
the same `serde_json::Error` type as any other decode failure,
distinguishable only by its message text; no distinct recoverable
"unrecognized variant" value is produced, and tolerating such lines is left
to the caller. -/
theorem c4_unknown_variant_is_error (tag : String) (payload : Json)
    (h : tag ≠ "Motor") :
    decodeDeviceStatusE (Json.obj [(tag, payload)]) =
      Except.error ("unknown variant " ++ tag ++ ", expected Motor") := by
  simp [decodeDeviceStatusE, h]

/-- C4 witness: the unknown tag `Gyro`. -/
theorem c4_unknown_variant_is_error_witness :
    decodeDeviceStatusE (Json.obj [("Gyro", Json.obj [])]) =
      Except.error "unknown variant Gyro, expected Motor" :=
  c4_unknown_variant_is_error "Gyro" (Json.obj []) (by decide)

/-- C5 counterexample: the payload-less variant `Event::Ready` does not
encode as a single-key object at all; serde encodes it as the bare string
`"Ready"`. -/
theorem c5_encoding_counterexample :
    encodeEvent Event.Ready = Json.str "Ready" ∧
    Json.isSingleKeyObj (encodeEvent Event.Ready) = false :=
  ⟨rfl, rfl⟩

/-- C5 (amended): every `Event` and `Command` with a payload encodes as a
single-key object keyed by the variant name, while payload-less variants
(`ScreenRender`, `Ready`, `Exited`, `StartExecution`) encode as the bare
variant-name string; payload-less enum fields such as `TouchEvent::Pressed`
encode as their bare name, and the `SmartPort` newtype encodes as its
wrapped scalar. -/
theorem c5_encoding_shape :
    (∀ e : Event,
      if e.isUnitVariant then encodeEvent e = Json.str e.variantName
      else (encodeEvent e).objKey = some e.variantName) ∧
    (∀ c : Command,
      if c.isUnitVariant then encodeCommand c = Json.str c.variantName
      else (encodeCommand c).objKey = some c.variantName) ∧
    encodeTouchEvent TouchEvent.Pressed = Json.str "Pressed" ∧
    (∀ p : SmartPort, encodeSmartPort p = Json.num (p.port.val : ℚ)) := by
  refine ⟨fun e => ?_, fun c => ?_, rfl, fun p => rfl⟩
  · cases e <;> rfl
  · cases c <;> rfl

/-- C6: a `CopyBuffer` stride of zero can neither be constructed
(`NonZeroU16::new(0)` is `None`) nor decoded, while stride one constructs
and round-trips. -/
theorem c6_copybuffer_stride :
    NonZeroU16.new 0 = none ∧
    NonZeroU16.new 1 = some ⟨1, by norm_num⟩ ∧
    (∀ (tl br : Point2) (buf : String),
      decodeDrawCommand (Json.obj [("CopyBuffer", Json.obj
          [("top_left", encodePoint2 tl), ("bottom_right", encodePoint2 br),
           ("stride", Json.num 0), ("buffer", Json.str buf)])]) = none) ∧
    (∀ (tl br : Point2) (buf : String),
      decodeDrawCommand (encodeDrawCommand
          (DrawCommand.CopyBuffer tl br ⟨1, by norm_num⟩ buf)) =
        some (DrawCommand.CopyBuffer tl br ⟨1, by norm_num⟩ buf)) := by
  refine ⟨rfl, rfl, fun tl br buf => ?_, fun tl br buf =>
    decodeDrawCommand_encode (DrawCommand.CopyBuffer tl br ⟨1, by norm_num⟩ buf)⟩
  have hstride : decodeNonZeroU16 (Json.num 0) = none := by
    simp [decodeNonZeroU16]
  simp [decodeDrawCommand, decodePoint2_encode, hstride, decodeString]
